import Mathlib

/-!
Shallow embedding of `src/experiments/continual/data_gen.py` (TinyZero,
continual Countdown data generation) together with a spec-modelled interface
for the external Puzzle Engine (`examples/data_preprocess/countdown_generate.py`,
which is not part of `src/`).

The Python script uses the global `random` module as its pseudo-random source;
we model that source as an explicit state of abstract type `σ` threaded through
every operation, with an abstract `RandomSource` structure providing `seed`,
`randint` and `choice`-by-index, constrained only by the range guarantees of
the Python library functions.
-/

/-- Arithmetic expressions over natural-number leaves, with the operator kept
as the operator string used by the Python code ("+", "-", "*", "/"). -/
inductive Expr where
  | num : Nat → Expr
  | op : String → Expr → Expr → Expr
deriving Repr, DecidableEq

/-- Evaluate an expression over ℚ; division by zero and unknown operator
strings yield `none`. -/
def evalExpr : Expr → Option ℚ
  | Expr.num n => some (n : ℚ)
  | Expr.op o a b =>
    match evalExpr a, evalExpr b with
    | some x, some y =>
      if o = "+" then some (x + y)
      else if o = "-" then some (x - y)
      else if o = "*" then some (x * y)
      else if o = "/" then (if y = 0 then none else some (x / y))
      else none
    | _, _ => none

/-- The multiset of number leaves of an expression, as a list. -/
def leaves : Expr → List Nat
  | Expr.num n => [n]
  | Expr.op _ a b => leaves a ++ leaves b

/-- All operator strings occurring in an expression. -/
def opsOf : Expr → List String
  | Expr.num _ => []
  | Expr.op o a b => o :: (opsOf a ++ opsOf b)

/-- An expression is a valid solution for (target, numbers, operator group) when
it evaluates exactly to the target, uses each given number exactly once (its
leaves are a permutation of the numbers), and draws operators only from the
group. This is the solvability notion of the spec, section 3. -/
def IsValidSolution (target : Nat) (nums : List Nat) (operators : List String)
    (e : Expr) : Prop :=
  evalExpr e = some (target : ℚ) ∧
  Multiset.ofList (leaves e) = Multiset.ofList nums ∧
  ∀ o ∈ opsOf e, o ∈ operators

instance (target : Nat) (nums : List Nat) (operators : List String) (e : Expr) :
    Decidable (IsValidSolution target nums operators e) := by
  unfold IsValidSolution
  infer_instance

/-- Abstract deterministic pseudo-random source over a state type `σ`,
modelling Python's global `random` module: `seed n` reinitialises the state,
`randint a b` draws an integer in the inclusive range [a, b] (Python
`random.randint`), and `choiceIdx n` draws an index below `n` (the index
`random.choice` picks from an `n`-element sequence). Each draw returns the
successor state. -/
structure RandomSource (σ : Type) where
  seed : Nat → σ
  randint : Nat → Nat → σ → Nat × σ
  choiceIdx : Nat → σ → Nat × σ
  randint_mem : ∀ a b s, a ≤ b → a ≤ (randint a b s).1 ∧ (randint a b s).1 ≤ b
  choiceIdx_lt : ∀ n s, 0 < n → (choiceIdx n s).1 < n

/-- Modelled from the spec: the external Puzzle Engine of
`examples/data_preprocess/countdown_generate.py` (class `CountDown` and the
search functions `dfs` / `bfs`), which is not under `src/`. Per spec section 6:
`generate` (the engine's `construct`) takes max target, instance size, operator
group and a target, consumes pseudo-random draws from the shared source, and
returns numbers together with an optional solution; `convert_to_path` renders a
known solution as a backtrack-free step sequence; `dfs` takes target, numbers,
heuristic name and a pruning threshold; `bfs` takes target, numbers, beam width
and heuristic name; both return a textual trace. `generate_sound` is the
engine's contract that any non-null solution it returns is valid for the
returned numbers, the requested target, and the given operator group. -/
structure PuzzleEngine (σ : Type) where
  generate : Nat → Nat → List String → Nat → σ → (List Nat × Option Expr) × σ
  convert_to_path : Nat → List Nat → Expr → String
  dfs : Nat → List Nat → String → Nat → String
  bfs : Nat → List Nat → Nat → String → String
  generate_sound : ∀ mt sz ops t s e,
    (generate mt sz ops t s).1.2 = some e →
    IsValidSolution t (generate mt sz ops t s).1.1 ops e

/-- One generated sample, with exactly the fields the Python dict literal in
`generate_samples` carries (the Python float rating is modelled as ℚ, since
only the exact values 0.0 and 1.0 occur). -/
structure Sample where
  target : Nat
  nums : List Nat
  solution : Option Expr
  search_path : String
  rating : ℚ
  optimal_path : String
  search_type : String
  heuristic : String
deriving Repr, DecidableEq

/-- Does `pat` lead the character list `l`? -/
def leadsWith : List Char → List Char → Bool
  | [], _ => true
  | _ :: _, [] => false
  | a :: as, b :: bs => a = b && leadsWith as bs

/-- Does `pat` occur contiguously somewhere inside `l`? -/
def occursIn (pat : List Char) : List Char → Bool
  | [] => leadsWith pat []
  | b :: bs => leadsWith pat (b :: bs) || occursIn pat bs

/-- Python's substring test `"Goal Reached" in search_path`. -/
def containsGoal (s : String) : Bool :=
  occursIn ("Goal Reached".toList) s.toList

/-- The fixed list `[1, 2, 3, 4, 5]` that `random.choice` draws the beam size
from in `generate_samples`. -/
def beamChoices : List Nat := [1, 2, 3, 4, 5]

/-- The inner `while not ok` loop of `generate_samples`: repeatedly draw a
target in [10, 1000] and ask the engine to generate numbers and a solution,
accepting the first attempt with a non-null solution. The Python loop is
unbounded; the embedding adds fuel and returns `none` on exhaustion. -/
def findTarget {σ : Type} (R : RandomSource σ) (E : PuzzleEngine σ)
    (start_size : Nat) (operators : List String) :
    Nat → σ → Option ((Nat × List Nat × Expr) × σ)
  | 0, _ => none
  | fuel + 1, s =>
    let t := (R.randint 10 1000 s).1
    let s1 := (R.randint 10 1000 s).2
    let g := E.generate 1000 start_size operators t s1
    match g.1.2 with
    | some e => some ((t, g.1.1, e), g.2)
    | none => findTarget R E start_size operators fuel g.2

/-- The body of the `for` loop of `generate_samples`: draw a start size in
[3, 4], find a solvable instance, derive the optimal path, pick heuristic and
search strategy, run the search (drawing a beam width first when beam search
was picked), compute the rating, and assemble the sample dict. -/
def genOne {σ : Type} (R : RandomSource σ) (E : PuzzleEngine σ)
    (operators : List String) (fuel : Nat) (s : σ) : Option (Sample × σ) :=
  let start_size := (R.randint 3 4 s).1
  let s1 := (R.randint 3 4 s).2
  match findTarget R E start_size operators fuel s1 with
  | none => none
  | some ((target, nums, sol), s2) =>
    let no_backtrack_trace := E.convert_to_path target nums sol
    let hIdx := (R.choiceIdx 2 s2).1
    let s3 := (R.choiceIdx 2 s2).2
    let heuristic := if hIdx = 0 then "sum_heuristic" else "mult_heuristic"
    let sIdx := (R.choiceIdx 2 s3).1
    let s4 := (R.choiceIdx 2 s3).2
    if sIdx = 0 then
      let search_path := E.dfs target nums heuristic target
      let rating : ℚ := if containsGoal search_path then 1 else 0
      some (⟨target, nums, some sol, search_path, rating, no_backtrack_trace,
             "dfs", heuristic⟩, s4)
    else
      let bIdx := (R.choiceIdx 5 s4).1
      let s5 := (R.choiceIdx 5 s4).2
      let beam_size := beamChoices.getD bIdx 1
      let search_path := E.bfs target nums beam_size heuristic
      let rating : ℚ := if containsGoal search_path then 1 else 0
      some (⟨target, nums, some sol, search_path, rating, no_backtrack_trace,
             "bfs_" ++ toString beam_size, heuristic⟩, s5)

/-- The `for _ in range(num_samples)` loop of `generate_samples`, threading the
shared pseudo-random state from one sample to the next. -/
def samplesFrom {σ : Type} (R : RandomSource σ) (E : PuzzleEngine σ)
    (operators : List String) (fuel : Nat) :
    Nat → σ → Option (List Sample × σ)
  | 0, s => some ([], s)
  | n + 1, s =>
    match genOne R E operators fuel s with
    | none => none
    | some (smp, s') =>
      match samplesFrom R E operators fuel n s' with
      | none => none
      | some (rest, s'') => some (smp :: rest, s'')

/-- `generate_samples(num_samples, seed_offset)` from `data_gen.py`: reseed the
shared source with `42 + group_idx + seed_offset`, discarding the ambient state
`s₀` the caller's source happened to be in, then run the sample loop. -/
def generate_samples {σ : Type} (R : RandomSource σ) (E : PuzzleEngine σ)
    (group_idx : Nat) (operators : List String) (fuel : Nat)
    (num_samples : Nat) (seed_offset : Nat) (s₀ : σ) : Option (List Sample) :=
  let s := R.seed (42 + group_idx + seed_offset)
  Option.map Prod.fst (samplesFrom R E operators fuel num_samples s)

/-- The operator groups declared in `DataGenerator.__init__`. -/
def operator_groups : List (List String) :=
  [["+"], ["+", "-"], ["+", "-", "*"], ["+", "-", "*", "/"]]

/-- The group names declared in `DataGenerator.__init__`. -/
def group_names : List String :=
  ["plus", "plus_minus", "plus_minus_mul", "plus_minus_mul_div"]

/-- Python's rendering of a list of integers, as interpolated by the f-string
`{numbers}`: for example `[51, 1, 1]`. -/
def reprNatList (l : List Nat) : String :=
  "[" ++ String.intercalate ", " (l.map toString) ++ "]"

/-- The literal text of the base template before the numbers. -/
def basePromptHead : String :=
  "A conversation between User and Assistant. The user asks a question, and the Assistant solves it. The assistant first thinks about the reasoning process in the mind and then provides the user with the answer.\nUser: Using the numbers "

/-- The literal text of both templates between the numbers and the target. -/
def promptMid1 : String :=
  ", create an equation that equals "

/-- The literal text of both templates between the target and the operator
list. -/
def promptMid2 : String :=
  ". You can use basic arithmetic operations ("

/-- The literal text of the base template after the operator list. -/
def basePromptTail : String :=
  ") and each number can only be used once. Show your work in <think> </think> tags. And return the final answer in <answer> </answer> tags, for example <answer> (1 + 2) / 3 </answer>.\nAssistant: Let me solve this step by step.\n<think>"

/-- The `template_type == 'base'` branch of make_prefix: the f-string
interpolating `{numbers}`, `{target}` and `{', '.join(operators)}` into the
base template. -/
def make_prefix_base (target : Nat) (nums : List Nat)
    (operators : List String) : String :=
  basePromptHead ++ reprNatList nums ++ promptMid1 ++ toString target ++
    promptMid2 ++ String.intercalate ", " operators ++ basePromptTail

/-- The literal text of the qwen-instruct template before the numbers. -/
def qwenPromptHead : String :=
  "<|im_start|>system\nYou are a helpful assistant. You first thinks about the reasoning process in the mind and then provides the user with the answer.<|im_end|>\n<|im_start|>user\n Using the numbers "

/-- The literal text of the qwen-instruct template after the operator list. -/
def qwenPromptTail : String :=
  ") and each number can only be used once. Show your work in <think> </think> tags. And return the final answer in <answer> </answer> tags, for example <answer> (1 + 2) / 3 </answer>.<|im_end|>\n<|im_start|>assistant\nLet me solve this step by step.\n<think>"

/-- The `template_type == 'qwen-instruct'` branch of make_prefix. -/
def make_prefix_qwen (target : Nat) (nums : List Nat)
    (operators : List String) : String :=
  qwenPromptHead ++ reprNatList nums ++ promptMid1 ++ toString target ++
    promptMid2 ++ String.intercalate ", " operators ++ qwenPromptTail

/-- The function make_prefix (dp, operators, template_type) of `data_gen.py`. The Python
function assigns `prefix` only on the 'base' and 'qwen-instruct' branches and
then returns it, so for any other template type the local variable is unbound
and the return fails; the total embedding returns `none` there. -/
def make_prefix (target : Nat) (nums : List Nat) (operators : List String)
    (template_type : String) : Option String :=
  if template_type = "base" then
    some ( make_prefix_base target nums operators)
  else if template_type = "qwen-instruct" then
    some ( make_prefix_qwen target nums operators)
  else
    none

/-- The nested `ground_truth` dict of a Training Record. -/
structure GroundTruth where
  target : Nat
  numbers : List Nat
  solution : Option Expr
  search_path : String
  rating : ℚ
  optimal_path : String
deriving Repr, DecidableEq

/-- The `extra_info` dict of a Training Record. -/
structure ExtraInfo where
  split : String
  index : Nat
  operator_group : String
  search_type : String
  heuristic : String
deriving Repr, DecidableEq

/-- One chat message of the `prompt` field. -/
structure Message where
  role : String
  content : String
deriving Repr, DecidableEq

/-- The `reward_model` dict of a Training Record. -/
structure RewardModel where
  style : String
  ground_truth : GroundTruth
deriving Repr, DecidableEq

/-- One Training Record as assembled by `process_fn` in `data_gen.py`. -/
structure TrainingRecord where
  data_source : String
  prompt : List Message
  ability : String
  reward_model : RewardModel
  extra_info : ExtraInfo
deriving Repr, DecidableEq

/-- `process_fn(example, idx)` from `create_dataset` in `data_gen.py`: build
the prompt from the base template with the full operator vocabulary
`["+", "-", "*", "/"]` (the source calls make_prefix with its default
template type 'base', whose branch returns exactly `make_prefix_base`), embed
the sample verbatim as ground truth, and tag provenance metadata. -/
def process_fn (group_idx : Nat) (split : String) (ex : Sample)
    (idx : Nat) : TrainingRecord :=
  let question := make_prefix_base ex.target ex.nums
    ["+", "-", "*", "/"]
  { data_source := "countdown_continual"
    prompt := [{ role := "user", content := question }]
    ability := "math"
    reward_model :=
      { style := "rule"
        ground_truth :=
          { target := ex.target
            numbers := ex.nums
            solution := ex.solution
            search_path := ex.search_path
            rating := ex.rating
            optimal_path := ex.optimal_path } }
    extra_info :=
      { split := split
        index := idx
        operator_group := group_names.getD group_idx ""
        search_type := ex.search_type
        heuristic := ex.heuristic } }

/-- `dataset.map(function=process_fn, with_indices=True)`: map a function of
(element, running index) over the list, indices starting at `i`. -/
def mapWithIdx (f : Sample → Nat → TrainingRecord) :
    List Sample → Nat → List TrainingRecord
  | [], _ => []
  | x :: xs, i => f x i :: mapWithIdx f xs (i + 1)

/-- `create_dataset(samples, split)` from `generate_group_data`, restricted to
the in-memory record sequence (the parquet serialization is external I/O). -/
def create_dataset (group_idx : Nat) (samples : List Sample)
    (split : String) : List TrainingRecord :=
  mapWithIdx (fun ex idx => process_fn group_idx split ex idx) samples 0

/-- `generate_group_data(group_idx, train_size, test_size)` from `data_gen.py`:
generate `train_size` samples with seed offset 0, alias the test samples to the
very same list (the independently seeded call is commented out in the source),
and assemble both splits' record sequences. `test_size` is accepted but never
read. -/
def generate_group_data {σ : Type} (R : RandomSource σ) (E : PuzzleEngine σ)
    (group_idx : Nat) (fuel : Nat) (train_size : Nat) (test_size : Nat)
    (s₀ : σ) : Option (List TrainingRecord × List TrainingRecord) :=
  let operators := operator_groups.getD group_idx []
  match generate_samples R E group_idx operators fuel train_size 0 s₀ with
  | none => none
  | some train_samples =>
    let test_samples := train_samples
    some (create_dataset group_idx train_samples "train",
          create_dataset group_idx test_samples "test")

/-- A concrete deterministic random source over a bare counter state, used to
exercise the pipeline on explicit inputs. -/
def detR : RandomSource Nat where
  seed n := n
  randint a b s := (a + s % (b - a + 1), s + 1)
  choiceIdx n s := (s % n, s + 1)
  randint_mem := by
    intro a b s hab
    constructor
    · exact Nat.le_add_right a _
    · have h := Nat.mod_lt s (show 0 < b - a + 1 by omega)
      simp only
      omega
  choiceIdx_lt := by
    intro n s hn
    exact Nat.mod_lt s hn

/-- The addition-only expression ((t - 2) + 1) + 1, a valid solution for
target t over numbers [t - 2, 1, 1] whenever 2 ≤ t. -/
def addExpr (t : Nat) : Expr :=
  Expr.op "+" (Expr.op "+" (Expr.num (t - 2)) (Expr.num 1)) (Expr.num 1)

/-- A concrete engine satisfying the Puzzle Engine contract: whenever the
operator group contains "+" and the target is at least 2 it returns numbers
[t - 2, 1, 1] with the solution `addExpr t`, and otherwise no solution; its
searches return fixed traces. -/
def detE : PuzzleEngine Nat where
  generate _mt _sz ops t s :=
    if "+" ∈ ops ∧ 2 ≤ t then (([t - 2, 1, 1], some (addExpr t)), s)
    else (([], none), s)
  convert_to_path _t _nums _e := "path"
  dfs _t _nums _h _th := "Goal Reached"
  bfs _t _nums _b _h := "no goal"
  generate_sound := by
    intro mt sz ops t s e hsome
    by_cases hc : "+" ∈ ops ∧ 2 ≤ t
    · simp only [hc, and_self, if_true] at hsome ⊢
      obtain rfl := Option.some.inj hsome
      refine ⟨?_, ?_, ?_⟩
      · have h2 : ((t - 2 : ℕ) : ℚ) = (t : ℚ) - 2 := by
          push_cast [Nat.cast_sub hc.2]
          ring
        have hev : evalExpr (addExpr t) = some (((t - 2 : ℕ) : ℚ) + 1 + 1) :=
          rfl
        rw [hev, h2]
        simp only [Option.some.injEq]
        ring
      · rfl
      · intro o ho
        simp [addExpr, opsOf] at ho
        simpa [ho] using hc.1
    · simp only [hc, if_false] at hsome
      simp at hsome

/-- The first concrete sample produced by the pipeline on `detR`/`detE` with
group 0 and seed offset 0. -/
def sample0 : Sample :=
  ⟨53, [51, 1, 1], some (addExpr 53), "no goal", 0, "path", "bfs_2",
   "sum_heuristic"⟩

/-- The second concrete sample produced by the pipeline on `detR`/`detE` with
group 0 and seed offset 0. -/
def sample1 : Sample :=
  ⟨58, [56, 1, 1], some (addExpr 58), "Goal Reached", 1, "path", "dfs",
   "mult_heuristic"⟩

/-- The per-sample invariant established by one pass of the generation loop
body: the stored solution is non-null and valid for the instance under the
group's operators, the rating is the indicator of the success sentinel in the
trace, the heuristic name is one of the two engine heuristics, and the search
type label together with the trace match the selected strategy (bare name for
depth-first, name plus beam width drawn from `beamChoices` for beam search). -/
def SampleOk {σ : Type} (E : PuzzleEngine σ) (ops : List String)
    (smp : Sample) : Prop :=
  (∃ e, smp.solution = some e ∧
    IsValidSolution smp.target smp.nums ops e) ∧
  smp.rating = (if containsGoal smp.search_path then (1 : ℚ) else 0) ∧
  smp.heuristic ∈ ["sum_heuristic", "mult_heuristic"] ∧
  ((smp.search_type = "dfs" ∧
      smp.search_path = E.dfs smp.target smp.nums smp.heuristic smp.target) ∨
   (∃ k, k ∈ beamChoices ∧ smp.search_type = "bfs_" ++ toString k ∧
      smp.search_path = E.bfs smp.target smp.nums k smp.heuristic))

/-- Replace the split tag of a Training Record, leaving every other field
untouched. -/
def withSplit (r : TrainingRecord) (sp : String) : TrainingRecord :=
  { r with extra_info := { r.extra_info with split := sp } }

/-- The spec's formulation of one generation pass (section 4.1): initialise
the pseudo-random source exactly once, at the start of the pass, from
`base_seed + group_index + seed_offset` with base seed 42, then run the whole
sample loop on the resulting state, with no further seeding. -/
def seededOncePass {σ : Type} (R : RandomSource σ) (E : PuzzleEngine σ)
    (group_idx : Nat) (operators : List String) (fuel : Nat)
    (num_samples : Nat) (seed_offset : Nat) : Option (List Sample) :=
  Option.map Prod.fst
    (samplesFrom R E operators fuel num_samples
      (R.seed (42 + group_idx + seed_offset)))

theorem findTarget_sound {σ : Type} (R : RandomSource σ) (E : PuzzleEngine σ)
    (sz : Nat) (ops : List String) :
    ∀ (fuel : Nat) (s s' : σ) (t : Nat) (nums : List Nat) (e : Expr),
      findTarget R E sz ops fuel s = some ((t, nums, e), s') →
      IsValidSolution t nums ops e := by
  intro fuel
  induction fuel with
  | zero =>
    intro s s' t nums e h
    simp [findTarget] at h
  | succ n ih =>
    intro s s' t nums e h
    simp only [findTarget] at h
    cases hg : (E.generate 1000 sz ops (R.randint 10 1000 s).1
        (R.randint 10 1000 s).2).1.2 with
    | some e' =>
      rw [hg] at h
      simp only [Option.some.injEq, Prod.mk.injEq] at h
      obtain ⟨⟨ht, hnums, he⟩, _⟩ := h
      subst ht
      subst he
      have hv := E.generate_sound 1000 sz ops _ _ _ hg
      rwa [hnums] at hv
    | none =>
      rw [hg] at h
      exact ih _ _ _ _ _ h

theorem genOne_ok {σ : Type} (R : RandomSource σ) (E : PuzzleEngine σ)
    (ops : List String) (fuel : Nat) (s s' : σ) (smp : Sample)
    (h : genOne R E ops fuel s = some (smp, s')) : SampleOk E ops smp := by
  simp only [genOne] at h
  cases hf : findTarget R E (R.randint 3 4 s).1 ops fuel (R.randint 3 4 s).2
    with
  | none =>
    rw [hf] at h
    simp at h
  | some p =>
    obtain ⟨⟨t, nums, sol⟩, s2⟩ := p
    rw [hf] at h
    have hsol := findTarget_sound R E (R.randint 3 4 s).1 ops fuel _ _ _ _ _ hf
    by_cases hs0 : (R.choiceIdx 2 (R.choiceIdx 2 s2).2).1 = 0
    · simp only [hs0, if_true, Option.some.injEq, Prod.mk.injEq] at h
      obtain ⟨hsmp, _⟩ := h
      subst hsmp
      refine ⟨⟨sol, rfl, hsol⟩, rfl, ?_, Or.inl ⟨rfl, rfl⟩⟩
      by_cases hh : (R.choiceIdx 2 s2).1 = 0 <;> simp [hh]
    · simp only [hs0, if_false, Option.some.injEq, Prod.mk.injEq] at h
      obtain ⟨hsmp, _⟩ := h
      subst hsmp
      have hb : (R.choiceIdx 5 (R.choiceIdx 2 (R.choiceIdx 2 s2).2).2).1 <
          beamChoices.length :=
        R.choiceIdx_lt 5 _ (by norm_num)
      refine ⟨⟨sol, rfl, hsol⟩, rfl, ?_, Or.inr ⟨beamChoices.getD
        (R.choiceIdx 5 (R.choiceIdx 2 (R.choiceIdx 2 s2).2).2).1 1, ?_, rfl,
        rfl⟩⟩
      · by_cases hh : (R.choiceIdx 2 s2).1 = 0 <;> simp [hh]
      · rw [List.getD_eq_getElem beamChoices 1 hb]
        exact List.getElem_mem hb

theorem samplesFrom_ok {σ : Type} (R : RandomSource σ) (E : PuzzleEngine σ)
    (ops : List String) (fuel : Nat) :
    ∀ (n : Nat) (s s' : σ) (l : List Sample),
      samplesFrom R E ops fuel n s = some (l, s') →
      ∀ smp ∈ l, SampleOk E ops smp := by
  intro n
  induction n with
  | zero =>
    intro s s' l h smp hm
    simp only [samplesFrom, Option.some.injEq, Prod.mk.injEq] at h
    rw [← h.1] at hm
    simp at hm
  | succ k ih =>
    intro s s' l h smp hm
    simp only [samplesFrom] at h
    split at h
    · simp at h
    next smp1 s1 heq =>
      split at h
      · simp at h
      next rest s2 heq2 =>
        simp only [Option.some.injEq, Prod.mk.injEq] at h
        rw [← h.1] at hm
        rcases List.mem_cons.mp hm with hm0 | hms
        · rw [hm0]
          exact genOne_ok R E ops fuel s s1 smp1 heq
        · exact ih s1 s2 rest heq2 smp hms

theorem samplesFrom_length {σ : Type} (R : RandomSource σ)
    (E : PuzzleEngine σ) (ops : List String) (fuel : Nat) :
    ∀ (n : Nat) (s s' : σ) (l : List Sample),
      samplesFrom R E ops fuel n s = some (l, s') → l.length = n := by
  intro n
  induction n with
  | zero =>
    intro s s' l h
    simp only [samplesFrom, Option.some.injEq, Prod.mk.injEq] at h
    rw [← h.1]
    rfl
  | succ k ih =>
    intro s s' l h
    simp only [samplesFrom] at h
    split at h
    · simp at h
    next smp1 s1 heq =>
      split at h
      · simp at h
      next rest s2 heq2 =>
        simp only [Option.some.injEq, Prod.mk.injEq] at h
        rw [← h.1]
        simp [ih s1 s2 rest heq2]

theorem generate_samples_some {σ : Type} (R : RandomSource σ)
    (E : PuzzleEngine σ) (g : Nat) (ops : List String) (fuel n off : Nat)
    (s₀ : σ) (l : List Sample)
    (h : generate_samples R E g ops fuel n off s₀ = some l) :
    ∃ s', samplesFrom R E ops fuel n (R.seed (42 + g + off)) = some (l, s') :=
  by
  simp only [generate_samples] at h
  cases hr : samplesFrom R E ops fuel n (R.seed (42 + g + off)) with
  | none =>
    rw [hr] at h
    simp at h
  | some q =>
    rw [hr] at h
    simp only [Option.map_some', Option.some.injEq] at h
    refine ⟨q.2, ?_⟩
    rw [← h]

theorem mapWithIdx_length (f : Sample → Nat → TrainingRecord) :
    ∀ (l : List Sample) (i : Nat), (mapWithIdx f l i).length = l.length := by
  intro l
  induction l with
  | nil => intro i; rfl
  | cons x xs ih =>
    intro i
    simp [mapWithIdx, ih]

theorem mapWithIdx_index (g : Nat) (sp : String) :
    ∀ (l : List Sample) (i : Nat),
      (mapWithIdx (fun ex idx => process_fn g sp ex idx) l i).map
          (fun r => r.extra_info.index) =
        List.range' i l.length := by
  intro l
  induction l with
  | nil => intro i; rfl
  | cons x xs ih =>
    intro i
    simp only [mapWithIdx, List.map_cons, List.length_cons,
      List.range'_succ]
    exact congrArg (i :: ·) (ih (i + 1))

theorem mapWithIdx_split_tag (g : Nat) (sp : String) :
    ∀ (l : List Sample) (i : Nat),
      ∀ r ∈ mapWithIdx (fun ex idx => process_fn g sp ex idx) l i,
        r.extra_info.split = sp := by
  intro l
  induction l with
  | nil => intro i r hr; simp [mapWithIdx] at hr
  | cons x xs ih =>
    intro i r hr
    rcases List.mem_cons.mp hr with h0 | hs
    · rw [h0]
      rfl
    · exact ih (i + 1) r hs

theorem mapWithIdx_test_eq_train (g : Nat) :
    ∀ (l : List Sample) (i : Nat),
      mapWithIdx (fun ex idx => process_fn g "test" ex idx) l i =
        (mapWithIdx (fun ex idx => process_fn g "train" ex idx) l i).map
          (fun r => withSplit r "test") := by
  intro l
  induction l with
  | nil => intro i; rfl
  | cons x xs ih =>
    intro i
    simp only [mapWithIdx, List.map_cons]
    exact congrArg₂ (· :: ·) rfl (ih (i + 1))

theorem mapWithIdx_prompt (g : Nat) (sp : String) :
    ∀ (l : List Sample) (i : Nat),
      ∀ r ∈ mapWithIdx (fun ex idx => process_fn g sp ex idx) l i,
        r.prompt = [Message.mk "user"
          (make_prefix_base r.reward_model.ground_truth.target
            r.reward_model.ground_truth.numbers ["+", "-", "*", "/"])] := by
  intro l
  induction l with
  | nil => intro i r hr; simp [mapWithIdx] at hr
  | cons x xs ih =>
    intro i r hr
    rcases List.mem_cons.mp hr with h0 | hs
    · rw [h0]
      rfl
    · exact ih (i + 1) r hs

theorem make_prefix_base_full_ops (t : Nat) (nums : List Nat) :
    make_prefix_base t nums ["+", "-", "*", "/"] =
      (basePromptHead ++ reprNatList nums ++ promptMid1 ++ toString t ++
        promptMid2) ++ "+, -, *, /" ++ basePromptTail := by
  show basePromptHead ++ reprNatList nums ++ promptMid1 ++ toString t ++
      promptMid2 ++ String.intercalate ", " ["+", "-", "*", "/"] ++
      basePromptTail = _
  rw [show String.intercalate ", " ["+", "-", "*", "/"] = "+, -, *, /" from
    rfl]

theorem generate_group_data_some {σ : Type} (R : RandomSource σ)
    (E : PuzzleEngine σ) (g fuel tr ts : Nat) (s₀ : σ)
    (train test : List TrainingRecord)
    (h : generate_group_data R E g fuel tr ts s₀ = some (train, test)) :
    ∃ samples, generate_samples R E g (operator_groups.getD g []) fuel tr 0 s₀
        = some samples ∧
      train = create_dataset g samples "train" ∧
      test = create_dataset g samples "test" := by
  simp only [generate_group_data] at h
  split at h
  · simp at h
  next samples heq =>
    simp only [Option.some.injEq, Prod.mk.injEq] at h
    exact ⟨samples, heq, h.1.symm, h.2.symm⟩

theorem create_dataset_def (g : Nat) (samples : List Sample) (sp : String) :
    create_dataset g samples sp =
      mapWithIdx (fun ex idx => process_fn g sp ex idx) samples 0 := rfl

/-- C1: for every operator group, seed offset and sample count, two
independent invocations of the generation pass with the same inputs produce
identical outputs: the ambient pseudo-random state a run starts from is
irrelevant, both for the raw sample sequence of `generate_samples` and for the
assembled Training Record sequences of `generate_group_data`, since each pass
reseeds the source from its fixed seed before drawing anything. -/
theorem claim_determinism {σ : Type} (R : RandomSource σ) (E : PuzzleEngine σ)
    (group_idx : Nat) (operators : List String) (fuel n off tr ts : Nat)
    (s₁ s₂ : σ) :
    generate_samples R E group_idx operators fuel n off s₁ =
      generate_samples R E group_idx operators fuel n off s₂ ∧
    generate_group_data R E group_idx fuel tr ts s₁ =
      generate_group_data R E group_idx fuel tr ts s₂ :=
  ⟨rfl, rfl⟩

/-- C2: every sample accepted by the generation pass carries a non-null
solution, and that solution is a valid expression over the sample's numbers,
restricted to the pass's operator group, evaluating to the sample's target. -/
theorem claim_solvability {σ : Type} (R : RandomSource σ) (E : PuzzleEngine σ)
    (group_idx : Nat) (operators : List String) (fuel n off : Nat) (s₀ : σ)
    (l : List Sample) (smp : Sample)
    (h : generate_samples R E group_idx operators fuel n off s₀ = some l)
    (hm : smp ∈ l) :
    ∃ e, smp.solution = some e ∧
      IsValidSolution smp.target smp.nums operators e := by
  obtain ⟨s', hs⟩ :=
    generate_samples_some R E group_idx operators fuel n off s₀ l h
  exact (samplesFrom_ok R E operators fuel n _ s' l hs smp hm).1

/-- C3: every generated sample's rating is 1 exactly when the string
"Goal Reached" occurs in its search path and 0 exactly otherwise, so no value
other than 0 and 1 ever occurs. -/
theorem claim_rating {σ : Type} (R : RandomSource σ) (E : PuzzleEngine σ)
    (group_idx : Nat) (operators : List String) (fuel n off : Nat) (s₀ : σ)
    (l : List Sample) (smp : Sample)
    (h : generate_samples R E group_idx operators fuel n off s₀ = some l)
    (hm : smp ∈ l) :
    (smp.rating = 1 ↔ containsGoal smp.search_path = true) ∧
    (smp.rating = 0 ↔ containsGoal smp.search_path = false) := by
  obtain ⟨s', hs⟩ :=
    generate_samples_some R E group_idx operators fuel n off s₀ l h
  have hr := (samplesFrom_ok R E operators fuel n _ s' l hs smp hm).2.1
  cases hcg : containsGoal smp.search_path
  · rw [hcg] at hr
    simp only [Bool.false_eq_true, if_false] at hr
    rw [hr]
    norm_num
  · rw [hcg] at hr
    simp only [if_true] at hr
    rw [hr]
    norm_num

/-- C4: the test split's record sequence is the train split's record sequence
with only the extra_info.split tag changed from "train" to "test", because the
test split reuses the very same generated samples. -/
theorem claim_test_split_aliases_train {σ : Type} (R : RandomSource σ)
    (E : PuzzleEngine σ) (g fuel tr ts : Nat) (s₀ : σ)
    (train test : List TrainingRecord)
    (h : generate_group_data R E g fuel tr ts s₀ = some (train, test)) :
    test = train.map (fun r => withSplit r "test") ∧
    (∀ r ∈ train, r.extra_info.split = "train") ∧
    (∀ r ∈ test, r.extra_info.split = "test") := by
  obtain ⟨samples, _, htr, hte⟩ :=
    generate_group_data_some R E g fuel tr ts s₀ train test h
  subst htr
  subst hte
  rw [create_dataset_def, create_dataset_def]
  exact ⟨mapWithIdx_test_eq_train g samples 0,
    mapWithIdx_split_tag g "train" samples 0,
    mapWithIdx_split_tag g "test" samples 0⟩

/-- C5: a generation pass seeds the pseudo-random source exactly once, at the
start, with 42 + group_index + seed_offset: its output coincides with the
seed-once pass for every ambient state, and the sample loop threads the state
from each instance into the next instead of reseeding per instance. -/
theorem claim_seed_once {σ : Type} (R : RandomSource σ) (E : PuzzleEngine σ)
    (group_idx : Nat) (operators : List String) (fuel n off : Nat)
    (s₀ s : σ) :
    generate_samples R E group_idx operators fuel n off s₀ =
      seededOncePass R E group_idx operators fuel n off ∧
    samplesFrom R E operators fuel (n + 1) s =
      Option.bind (genOne R E operators fuel s) (fun p =>
        Option.map (fun q => (p.1 :: q.1, q.2))
          (samplesFrom R E operators fuel n p.2)) := by
  constructor
  · rfl
  · cases hg : genOne R E operators fuel s with
    | none => simp [samplesFrom, hg]
    | some p =>
      obtain ⟨smp, s1⟩ := p
      cases hr : samplesFrom R E operators fuel n s1 with
      | none => simp [samplesFrom, hg, hr]
      | some q =>
        obtain ⟨rest, s2⟩ := q
        simp [samplesFrom, hg, hr]

/-- C6: within one split of one group, the extra_info.index field of the
record sequence is exactly 0, 1, ..., count - 1 in record order. -/
theorem claim_index_contiguity {σ : Type} (R : RandomSource σ)
    (E : PuzzleEngine σ) (g fuel tr ts : Nat) (s₀ : σ)
    (train test : List TrainingRecord)
    (h : generate_group_data R E g fuel tr ts s₀ = some (train, test)) :
    train.map (fun r => r.extra_info.index) = List.range train.length ∧
    test.map (fun r => r.extra_info.index) = List.range test.length := by
  obtain ⟨samples, _, htr, hte⟩ :=
    generate_group_data_some R E g fuel tr ts s₀ train test h
  subst htr
  subst hte
  rw [create_dataset_def, create_dataset_def]
  constructor
  · rw [mapWithIdx_length, mapWithIdx_index, List.range_eq_range']
  · rw [mapWithIdx_length, mapWithIdx_index, List.range_eq_range']

/-- C7: every record of either split, for every operator group, renders its
prompt from the base template with the full operator vocabulary
["+", "-", "*", "/"] rather than the group's own operators, so the prompt text
literally contains the joined list "+, -, *, /" together with the record's own
numbers and target. -/
theorem claim_prompt_full_vocabulary {σ : Type} (R : RandomSource σ)
    (E : PuzzleEngine σ) (g fuel tr ts : Nat) (s₀ : σ)
    (train test : List TrainingRecord) (r : TrainingRecord)
    (h : generate_group_data R E g fuel tr ts s₀ = some (train, test))
    (hm : r ∈ train ++ test) :
    r.prompt = [Message.mk "user"
      (make_prefix_base r.reward_model.ground_truth.target
        r.reward_model.ground_truth.numbers ["+", "-", "*", "/"])] ∧
    make_prefix_base r.reward_model.ground_truth.target
        r.reward_model.ground_truth.numbers ["+", "-", "*", "/"] =
      (basePromptHead ++ reprNatList r.reward_model.ground_truth.numbers ++
        promptMid1 ++ toString r.reward_model.ground_truth.target ++
        promptMid2) ++ "+, -, *, /" ++ basePromptTail := by
  obtain ⟨samples, _, htr, hte⟩ :=
    generate_group_data_some R E g fuel tr ts s₀ train test h
  subst htr
  subst hte
  rcases List.mem_append.mp hm with hmem | hmem
  · rw [create_dataset_def] at hmem
    exact ⟨mapWithIdx_prompt g "train" samples 0 r hmem,
      make_prefix_base_full_ops _ _⟩
  · rw [create_dataset_def] at hmem
    exact ⟨mapWithIdx_prompt g "test" samples 0 r hmem,
      make_prefix_base_full_ops _ _⟩

/-- C8: every generated sample's search_type label is the bare strategy name
"dfs" when depth-first search was selected (and the trace is the dfs trace),
or "bfs_" followed by a beam width drawn from the fixed set beamChoices =
[1, 2, 3, 4, 5] when beam search was selected (and the trace is the bfs trace
for that width). -/
theorem claim_search_type_label {σ : Type} (R : RandomSource σ)
    (E : PuzzleEngine σ) (group_idx : Nat) (operators : List String)
    (fuel n off : Nat) (s₀ : σ) (l : List Sample) (smp : Sample)
    (h : generate_samples R E group_idx operators fuel n off s₀ = some l)
    (hm : smp ∈ l) :
    (smp.search_type = "dfs" ∧
      smp.search_path = E.dfs smp.target smp.nums smp.heuristic smp.target) ∨
    (∃ k, k ∈ beamChoices ∧ smp.search_type = "bfs_" ++ toString k ∧
      smp.search_path = E.bfs smp.target smp.nums k smp.heuristic) := by
  obtain ⟨s', hs⟩ :=
    generate_samples_some R E group_idx operators fuel n off s₀ l h
  exact (samplesFrom_ok R E operators fuel n _ s' l hs smp hm).2.2.2

/-- C9: generate_group_data never reads test_size: its output for any two
test_size values is the same, and the test split always has exactly train_size
records, namely the reused train records. -/
theorem claim_test_size_ignored {σ : Type} (R : RandomSource σ)
    (E : PuzzleEngine σ) (g fuel tr ts1 ts2 : Nat) (s₀ : σ)
    (train test : List TrainingRecord)
    (h : generate_group_data R E g fuel tr ts1 s₀ = some (train, test)) :
    generate_group_data R E g fuel tr ts2 s₀ = some (train, test) ∧
    test.length = train.length ∧ train.length = tr := by
  obtain ⟨samples, hgs, htr, hte⟩ :=
    generate_group_data_some R E g fuel tr ts1 s₀ train test h
  obtain ⟨s', hsf⟩ := generate_samples_some R E g
    (operator_groups.getD g []) fuel tr 0 s₀ samples hgs
  have hlen := samplesFrom_length R E (operator_groups.getD g []) fuel tr
    _ s' samples hsf
  subst htr
  subst hte
  refine ⟨h, ?_, ?_⟩
  · rw [create_dataset_def, create_dataset_def, mapWithIdx_length,
      mapWithIdx_length]
  · rw [create_dataset_def, mapWithIdx_length]
    exact hlen

/-- C10: for every template type other than "base" and "qwen-instruct",
make_prefix produces no prompt string: the Python local holding the result is
never assigned on such branches, so the total embedding returns none. -/
theorem claim_make_prefix_fails_other_templates (t : Nat) (nums : List Nat)
    (ops : List String) (tmpl : String) (h1 : tmpl ≠ "base")
    (h2 : tmpl ≠ "qwen-instruct") : make_prefix t nums ops tmpl = none := by
  simp [ make_prefix, h1, h2]

set_option maxRecDepth 4000 in
/-- Witness for C2: the second sample of a concrete two-sample run on the
concrete source and engine carries the valid solution ((58 - 2) + 1) + 1. -/
theorem claim_solvability_witness :
    sample1.solution = some (addExpr 58) ∧
    IsValidSolution sample1.target sample1.nums ["+"] (addExpr 58) := by
  obtain ⟨e, he, hv⟩ := claim_solvability detR detE 0 ["+"] 1 2 0 0
    [sample0, sample1] sample1 (by decide) (by decide)
  have h0 : sample1.solution = some (addExpr 58) := rfl
  rw [h0] at he
  obtain rfl := Option.some.inj he
  exact ⟨h0, hv⟩

set_option maxRecDepth 4000 in
/-- Witness for C3 at the same concrete run: sample1's trace contains the
sentinel and its rating is 1. -/
theorem claim_rating_witness :
    (sample1.rating = 1 ↔ containsGoal sample1.search_path = true) ∧
    (sample1.rating = 0 ↔ containsGoal sample1.search_path = false) :=
  claim_rating detR detE 0 ["+"] 1 2 0 0 [sample0, sample1] sample1
    (by decide) (by decide)

set_option maxRecDepth 8000 in
/-- Witness for C4 at a concrete one-sample group run. -/
theorem claim_test_split_aliases_train_witness :
    create_dataset 0 [sample0] "test" =
      (create_dataset 0 [sample0] "train").map (fun r => withSplit r "test") :=
  (claim_test_split_aliases_train detR detE 0 1 1 7680 0
    (create_dataset 0 [sample0] "train") (create_dataset 0 [sample0] "test")
    (by decide)).1

set_option maxRecDepth 8000 in
/-- Witness for C6 at a concrete one-sample group run. -/
theorem claim_index_contiguity_witness :
    (create_dataset 0 [sample0] "train").map (fun r => r.extra_info.index) =
      List.range (create_dataset 0 [sample0] "train").length :=
  (claim_index_contiguity detR detE 0 1 1 7680 0
    (create_dataset 0 [sample0] "train") (create_dataset 0 [sample0] "test")
    (by decide)).1

set_option maxRecDepth 8000 in
/-- Witness for C7 at a concrete record of the train split of group 0. -/
theorem claim_prompt_full_vocabulary_witness :
    (process_fn 0 "train" sample0 0).prompt = [Message.mk "user"
      (make_prefix_base
        (process_fn 0 "train" sample0 0).reward_model.ground_truth.target
        (process_fn 0 "train" sample0 0).reward_model.ground_truth.numbers
        ["+", "-", "*", "/"])] :=
  (claim_prompt_full_vocabulary detR detE 0 1 1 7680 0
    (create_dataset 0 [sample0] "train") (create_dataset 0 [sample0] "test")
    (process_fn 0 "train" sample0 0) (by decide) (by decide)).1

set_option maxRecDepth 4000 in
/-- Witness for C8: the first sample of the concrete run used beam search
with width 2 and is labelled accordingly. -/
theorem claim_search_type_label_witness :
    sample0.search_type = "bfs_" ++ toString 2 ∧
    sample0.search_path =
      detE.bfs sample0.target sample0.nums 2 sample0.heuristic := by
  rcases claim_search_type_label detR detE 0 ["+"] 1 2 0 0 [sample0, sample1]
      sample0 (by decide) (by decide) with ⟨hd, _⟩ | ⟨k, hk, hst, hsp⟩
  · exact absurd hd (by decide)
  · simp only [beamChoices, List.mem_cons, List.not_mem_nil, or_false] at hk
    rcases hk with rfl | rfl | rfl | rfl | rfl
    · exact absurd hst (by decide)
    · exact ⟨hst, hsp⟩
    · exact absurd hst (by decide)
    · exact absurd hst (by decide)
    · exact absurd hst (by decide)

set_option maxRecDepth 8000 in
/-- Witness for C9: changing test_size from 7680 to 99 leaves the concrete
group output unchanged, and both splits have exactly train_size = 1 record. -/
theorem claim_test_size_ignored_witness :
    generate_group_data detR detE 0 1 1 99 0 =
      some (create_dataset 0 [sample0] "train",
        create_dataset 0 [sample0] "test") ∧
    (create_dataset 0 [sample0] "test").length =
      (create_dataset 0 [sample0] "train").length ∧
    (create_dataset 0 [sample0] "train").length = 1 :=
  claim_test_size_ignored detR detE 0 1 1 7680 99 0
    (create_dataset 0 [sample0] "train") (create_dataset 0 [sample0] "test")
    (by decide)

/-- Witness for C10 at the concrete template type "chatml". -/
theorem claim_make_prefix_fails_other_templates_witness :
    make_prefix 24 [4, 6, 1] ["+"] "chatml" = none :=
  claim_make_prefix_fails_other_templates 24 [4, 6, 1] ["+"] "chatml"
    (by decide) (by decide)
